import Mathlib

/-!
Verification development for the recipe-platform HTTP server
(`src/index.ts`, `src/db.ts`).  The data model, the validation schemas,
the SQL-level operations and the request handlers that the checked
properties talk about are embedded as executable Lean definitions,
translated from the TypeScript source.  External library primitives
(zod format checks, bcryptjs, JSON.stringify) are modelled by clearly
named executable stand-ins; everything that lives in the repository
itself follows the source line by line.
-/

namespace RecipeServer

/-- JSON-like values: the payloads of HTTP responses and the positional
parameters handed to the SQL driver.  JavaScript has a single number
type, modelled here by rationals. -/
inductive Json where
  | null : Json
  | str (s : String) : Json
  | num (q : Rat) : Json
  | bool (b : Bool) : Json
  | arr (l : List Json) : Json
  | obj (l : List (String × Json)) : Json

/-- Whether a JSON value contains a given object key, at the top level
or inside the objects of a top-level array.  Every response body this
server produces is an object of atoms or an array of objects of atoms,
so this search is complete for the development. -/
def Json.hasKey (k : String) : Json → Bool
  | Json.obj l => l.any fun p => p.1 == k
  | Json.arr l => l.any fun j =>
      match j with
      | Json.obj l2 => l2.any fun p => p.1 == k
      | _ => false
  | _ => false

/-- Option-to-JSON conversion used when serializing nullable columns. -/
def optStr : Option String → Json
  | none => Json.null
  | some s => Json.str s

/-- HTTP response: a status code and a JSON body (204 responses carry
`Json.null`). -/
structure HResp where
  status : Nat
  body : Json

/-- Body of every `catch` block in `index.ts`:
`res.status(...).json({ error: (e as Error).message })`. -/
def errBody (m : String) : Json := Json.obj [("error", Json.str m)]

/-- Body of every schema-rejection response:
`{ error: 'Datos inválidos', details: parsed.error.flatten() }`.  The
structured `details` report is abstracted to `Json.null`. -/
def invalidBody : Json :=
  Json.obj [("error", Json.str "Datos inválidos"), ("details", Json.null)]

/-! ## External-library stand-ins -/

/-- Hexadecimal digit test, used by the UUID format check. -/
def isHexDigit (c : Char) : Bool :=
  c.isDigit || (('a' ≤ c && c ≤ 'f') || ('A' ≤ c && c ≤ 'F'))

/-- Modelled from the spec: the UUID-format check `z.string().uuid()`
performed by the validation library (external to this repository) —
8-4-4-4-12 hexadecimal groups separated by dashes. -/
def isUuid (s : String) : Bool :=
  let cs := s.toList
  cs.length == 36 &&
    cs.enum.all fun p =>
      if p.1 == 8 || p.1 == 13 || p.1 == 18 || p.1 == 23 then p.2 == '-'
      else isHexDigit p.2

/-- Modelled from the spec: the email-format check `z.string().email()`
of the validation library (external to this repository) — exactly one
`@`, not at either end. -/
def isEmail (s : String) : Bool :=
  let cs := s.data
  cs.count '@' == 1 && cs.head? != some '@' && cs.getLast? != some '@'

/-- Prefix test on character lists. -/
def startsWithL : List Char → List Char → Bool
  | _, [] => true
  | [], _ :: _ => false
  | c :: cs, p :: ps => c == p && startsWithL cs ps

/-- Substring test on character lists. -/
def containsSub : List Char → List Char → Bool
  | [], pat => pat.isEmpty
  | c :: cs, pat => startsWithL (c :: cs) pat || containsSub cs pat

/-- Modelled from the spec: the URL-format check `z.string().url()` of
the validation library (external to this repository) — a nonempty
scheme followed by a `://` separator. -/
def isUrl (s : String) : Bool :=
  !s.data.isEmpty && s.data.head? != some ':'
    && containsSub s.data [':', '/', '/']

/-- Modelled from the spec: the SQL `lower(...)` function of the
storage engine, applied character by character. -/
def lowerStr (s : String) : List Char :=
  s.data.map Char.toLower

/-- Modelled from the spec: `bcrypt.hash(password, cost)` from the
external bcryptjs library, represented by an injective tagged encoding
that records the cost factor the caller passed. -/
def bcryptHash (password : String) (cost : Nat) : String :=
  "bcrypt$" ++ toString cost ++ "$" ++ password

/-- Modelled from the spec: `bcrypt.compare(password, hash)` from the
external bcryptjs library, the matching stand-in for `bcryptHash`. -/
def bcryptCompare (password hash : String) : Bool :=
  hash.endsWith ("$" ++ password)

/-- One ingredient of a recipe: `{ name: string, amount: string }`. -/
structure Ingredient where
  name : String
  amount : String
deriving DecidableEq

/-- Modelled from the spec: `JSON.stringify` (JavaScript builtin)
applied to the validated ingredient list before it is stored. -/
def stringifyIngredient (i : Ingredient) : String :=
  "\x7b\"name\":\"" ++ i.name ++ "\",\"amount\":\"" ++ i.amount ++ "\"\x7d"

/-- Modelled from the spec: `JSON.stringify` of the whole ingredient
array. -/
def stringifyIngredients (l : List Ingredient) : String :=
  "[" ++ String.intercalate "," (l.map stringifyIngredient) ++ "]"

/-! ## Table rows and database state -/

/-- Row of `public.users`.  `password_hash` is nullable in the schema
(the login handler explicitly guards a missing hash). -/
structure UserRow where
  id : String
  name : String
  email : String
  passwordHash : Option String
  avatarUrl : Option String
  createdAt : Nat
deriving DecidableEq

/-- Row of `public.recipes`.  The `ingredients` column stores the JSON
text produced by `JSON.stringify`. -/
structure Recipe where
  id : String
  userId : String
  categoryId : Option Int
  title : String
  description : Option String
  ingredients : Option String
  imageUrl : Option String
  prepTime : Option String
  cookTime : Option String
  servings : Option Int
  difficulty : Option String
  createdAt : Nat
deriving DecidableEq

/-- Row of `public.favorites`: composite key (user_id, recipe_id). -/
structure FavoriteRow where
  userId : String
  recipeId : String
  createdAt : Nat
deriving DecidableEq

/-- Row of `public.ratings`: composite key (user_id, recipe_id) with a
unique index, relied on by `ON CONFLICT`. -/
structure RatingRow where
  userId : String
  recipeId : String
  rating : Int
deriving DecidableEq

/-- Row of `public.comments`. -/
structure CommentRow where
  id : String
  recipeId : String
  userId : String
  content : String
  createdAt : Nat
deriving DecidableEq

/-- The relational store as seen by the handlers. -/
structure Db where
  users : List UserRow
  recipes : List Recipe
  favorites : List FavoriteRow
  ratings : List RatingRow
  comments : List CommentRow
deriving DecidableEq

/-! ## Validation layer (`zod` schemas from `index.ts`) -/

/-- Raw value reaching a `z.coerce.number()` field: either a JSON
number or a string to be coerced. -/
def NumInput : Type := Sum Int String

/-- Coercion performed by `z.coerce.number().int()`: numbers pass
through, strings go through `Number(...)` and must denote an integer. -/
def coerceInt : NumInput → Option Int
  | Sum.inl n => some n
  | Sum.inr s => s.toInt?

/-- Raw request body for the recipe schemas: each field is absent or
carries its JavaScript-typed value. -/
structure RecipeBody where
  title : Option String
  description : Option String
  categoryId : Option NumInput
  imageUrl : Option String
  ingredients : Option (List Ingredient)
  prepTime : Option String
  cookTime : Option String
  servings : Option NumInput
  difficulty : Option String
  userId : Option String

/-- Result of `RecipeCreateSchema.partial().safeParse`: every field
optional, present fields validated. -/
structure RecipeUpdate where
  title : Option String
  description : Option String
  categoryId : Option Int
  imageUrl : Option String
  ingredients : Option (List Ingredient)
  prepTime : Option String
  cookTime : Option String
  servings : Option Int
  difficulty : Option String
  userId : Option String
deriving DecidableEq

/-- Result of `RecipeCreateSchema.safeParse`: `title` and `userId`
required, the rest optional. -/
structure RecipeCreateInput where
  title : String
  description : Option String
  categoryId : Option Int
  imageUrl : Option String
  ingredients : Option (List Ingredient)
  prepTime : Option String
  cookTime : Option String
  servings : Option Int
  difficulty : Option String
  userId : String
deriving DecidableEq

/-- Validation of an optional field: an absent field passes untouched,
a present field must satisfy its validator. -/
def checkOpt (f : α → Option β) : Option α → Option (Option β)
  | none => some none
  | some a => (f a).map some

/-- Validator for `z.string().min(1)`. -/
def vStr1 (s : String) : Option String :=
  if 1 ≤ s.length then some s else none

/-- Validator for `z.coerce.number().int().positive()`. -/
def vPosInt (c : NumInput) : Option Int :=
  (coerceInt c).bind fun n => if 0 < n then some n else none

/-- Validator for `z.string().url()`. -/
def vUrl (s : String) : Option String :=
  if isUrl s then some s else none

/-- Validator for `z.enum(["Fácil", "Media", "Difícil"])`. -/
def vDifficulty (s : String) : Option String :=
  if s = "Fácil" ∨ s = "Media" ∨ s = "Difícil" then some s else none

/-- Validator for `z.string().uuid()`. -/
def vUuid (s : String) : Option String :=
  if isUuid s then some s else none

/-- `RecipeCreateSchema.partial().safeParse` from `index.ts`: all ten
declared fields are optional and each present field is validated by
its per-field rule. -/
def parseRecipeUpdate (b : RecipeBody) : Option RecipeUpdate :=
  (checkOpt vStr1 b.title).bind fun title =>
  (checkOpt some b.description).bind fun description =>
  (checkOpt vPosInt b.categoryId).bind fun categoryId =>
  (checkOpt vUrl b.imageUrl).bind fun imageUrl =>
  (checkOpt some b.ingredients).bind fun ingredients =>
  (checkOpt some b.prepTime).bind fun prepTime =>
  (checkOpt some b.cookTime).bind fun cookTime =>
  (checkOpt vPosInt b.servings).bind fun servings =>
  (checkOpt vDifficulty b.difficulty).bind fun difficulty =>
  (checkOpt vUuid b.userId).bind fun userId =>
  some ⟨title, description, categoryId, imageUrl, ingredients,
        prepTime, cookTime, servings, difficulty, userId⟩

/-- `RecipeCreateSchema.safeParse` from `index.ts`: the same per-field
validation, with `title` and `userId` additionally required. -/
def parseRecipeCreate (b : RecipeBody) : Option RecipeCreateInput :=
  (parseRecipeUpdate b).bind fun u =>
    match u.title, u.userId with
    | some t, some uid =>
        some ⟨t, u.description, u.categoryId, u.imageUrl, u.ingredients,
              u.prepTime, u.cookTime, u.servings, u.difficulty, uid⟩
    | _, _ => none

/-- Raw body for `RegisterSchema`. -/
structure RegisterBody where
  name : Option String
  email : Option String
  password : Option String
  avatarUrl : Option String

/-- Result of `RegisterSchema.safeParse`. -/
structure RegisterInput where
  name : String
  email : String
  password : String
  avatarUrl : Option String
deriving DecidableEq

/-- `RegisterSchema.safeParse`: `name` min 1, valid `email`, `password`
min 6, optional `avatarUrl` URL. -/
def parseRegister (b : RegisterBody) : Option RegisterInput :=
  match b.name, b.email, b.password with
  | some n, some e, some p =>
      if 1 ≤ n.length && isEmail e && 6 ≤ p.length then
        (checkOpt vUrl b.avatarUrl).map fun av => ⟨n, e, p, av⟩
      else none
  | _, _, _ => none

/-- Raw body for `LoginSchema`. -/
structure LoginBody where
  email : Option String
  password : Option String

/-- Result of `LoginSchema.safeParse`. -/
structure LoginInput where
  email : String
  password : String
deriving DecidableEq

/-- `LoginSchema.safeParse`: valid `email`, `password` min 6. -/
def parseLogin (b : LoginBody) : Option LoginInput :=
  match b.email, b.password with
  | some e, some p =>
      if isEmail e && 6 ≤ p.length then some ⟨e, p⟩ else none
  | _, _ => none

/-- `RatingSchema.safeParse`: `z.coerce.number().int().min(1).max(5)`
on the `rating` field. -/
def parseRating (b : Option NumInput) : Option Int :=
  b.bind fun c => (coerceInt c).bind fun n =>
    if 1 ≤ n ∧ n ≤ 5 then some n else none

/-! ## Partial-update builder (`PUT /api/recipes/:id`) -/

/-- The nine recognized recipe fields in source order, each paired with
its SQL parameter value when present in the parsed body.  `userId` is
destructured away by the handler and deliberately missing here. -/
def fieldList (u : RecipeUpdate) : List (String × Option Json) :=
  [("title", u.title.map Json.str),
   ("description", u.description.map Json.str),
   ("category_id", u.categoryId.map fun n => Json.num (n : Rat)),
   ("image_url", u.imageUrl.map Json.str),
   ("ingredients", u.ingredients.map fun l => Json.str (stringifyIngredients l)),
   ("prep_time", u.prepTime.map Json.str),
   ("cook_time", u.cookTime.map Json.str),
   ("servings", u.servings.map fun n => Json.num (n : Rat)),
   ("difficulty", u.difficulty.map Json.str)]

/-- One conditional block of the builder:
`if (field !== undefined) { updates.push(...); values.push(...) }`.
The accumulator carries `updates`, `values` and `paramIndex`. -/
def pushF (acc : List String × List Json × Nat) (p : String × Option Json) :
    List String × List Json × Nat :=
  match p.2 with
  | some v =>
      (acc.1 ++ [p.1 ++ " = $" ++ toString acc.2.2],
       acc.2.1 ++ [v],
       acc.2.2 + 1)
  | none => acc

/-- The builder loop of the update handler: starting from
`updates = []`, `values = []`, `paramIndex = 1`, the nine conditional
pushes run in source order. -/
def buildUpdates (u : RecipeUpdate) : List String × List Json × Nat :=
  (fieldList u).foldl pushF ([], [], 1)

/-- The assignment pairs (column, parameter value) for exactly the
recognized fields present in the body, in source order. -/
def presentAssignments (u : RecipeUpdate) : List (String × Json) :=
  (fieldList u).filterMap fun p => p.2.map fun v => (p.1, v)

/-- Rendering of assignment pairs into positional SET-clause text and
the parallel parameter list, numbering parameters from `i`. -/
def numberFrom (i : Nat) : List (String × Json) → List String × List Json
  | [] => ([], [])
  | (c, v) :: rest =>
      let r := numberFrom (i + 1) rest
      ((c ++ " = $" ++ toString i) :: r.1, v :: r.2)

/-- Effect of one SQL `SET` assignment on a recipe row.  Every column
of `public.recipes` is interpreted, including `user_id` and
`created_at`; assignments the builder never emits would change them. -/
def applyAssign (r : Recipe) (cv : String × Json) : Recipe :=
  if cv.1 = "title" then
    match cv.2 with | Json.str t => { r with title := t } | _ => r
  else if cv.1 = "description" then
    match cv.2 with | Json.str d => { r with description := some d } | _ => r
  else if cv.1 = "category_id" then
    match cv.2 with | Json.num n => { r with categoryId := some n.floor } | _ => r
  else if cv.1 = "image_url" then
    match cv.2 with | Json.str s => { r with imageUrl := some s } | _ => r
  else if cv.1 = "ingredients" then
    match cv.2 with | Json.str s => { r with ingredients := some s } | _ => r
  else if cv.1 = "prep_time" then
    match cv.2 with | Json.str s => { r with prepTime := some s } | _ => r
  else if cv.1 = "cook_time" then
    match cv.2 with | Json.str s => { r with cookTime := some s } | _ => r
  else if cv.1 = "servings" then
    match cv.2 with | Json.num n => { r with servings := some n.floor } | _ => r
  else if cv.1 = "difficulty" then
    match cv.2 with | Json.str s => { r with difficulty := some s } | _ => r
  else if cv.1 = "user_id" then
    match cv.2 with | Json.str s => { r with userId := s } | _ => r
  else if cv.1 = "created_at" then
    match cv.2 with | Json.num n => { r with createdAt := n.floor.toNat } | _ => r
  else r

/-- Applying a whole `SET` clause to a row. -/
def applySet (r : Recipe) (l : List (String × Json)) : Recipe :=
  l.foldl applyAssign r

/-- Serialization of a recipe row as returned by the INSERT/UPDATE
`RETURNING` projections of `index.ts`. -/
def recipeJson (r : Recipe) : Json :=
  Json.obj
    [("id", Json.str r.id),
     ("userId", Json.str r.userId),
     ("categoryId", match r.categoryId with
       | none => Json.null
       | some n => Json.num (n : Rat)),
     ("title", Json.str r.title),
     ("description", optStr r.description),
     ("ingredients", optStr r.ingredients),
     ("imageUrl", optStr r.imageUrl),
     ("prepTime", optStr r.prepTime),
     ("cookTime", optStr r.cookTime),
     ("servings", match r.servings with
       | none => Json.null
       | some n => Json.num (n : Rat)),
     ("difficulty", optStr r.difficulty),
     ("createdAt", Json.num (r.createdAt : Rat))]

/-- `SELECT ... FROM public.recipes WHERE id = $1` returning the first
matching row. -/
def findRecipe (db : Db) (rid : String) : Option Recipe :=
  db.recipes.find? fun r => r.id == rid

/-- The `PUT /api/recipes/:id` handler: parse the partial schema
(400 on failure), check existence (404), build the dynamic `SET`
clause (400 when empty), then run the UPDATE and return the updated
row.  The UPDATE execution is interpreted through the assignment pairs
whose rendering is proven equal to the generated clause/parameters. -/
def updateRecipeHandler (db : Db) (rid : String) (b : RecipeBody) : HResp × Db :=
  match parseRecipeUpdate b with
  | none => (⟨400, invalidBody⟩, db)
  | some u =>
    match findRecipe db rid with
    | none => (⟨404, errBody "Receta no encontrada"⟩, db)
    | some r0 =>
      let built := buildUpdates u
      if built.1.isEmpty then
        (⟨400, errBody "No hay campos para actualizar"⟩, db)
      else
        let updated := applySet r0 (presentAssignments u)
        let newRecipes := db.recipes.map fun r =>
          if r.id == rid then applySet r (presentAssignments u) else r
        (⟨200, recipeJson updated⟩, { db with recipes := newRecipes })

/-- The `POST /api/recipes` handler (JSON variant).  The third
component counts the SQL statements issued, to express that a
validation failure answers before any database access.  `newId` and
`now` stand for the server-assigned id and `created_at`. -/
def postRecipeHandler (db : Db) (b : RecipeBody) (newId : String) (now : Nat) :
    HResp × Db × Nat :=
  match parseRecipeCreate b with
  | none => (⟨400, invalidBody⟩, db, 0)
  | some c =>
      let row : Recipe :=
        ⟨newId, c.userId, c.categoryId, c.title, c.description,
         c.ingredients.map stringifyIngredients, c.imageUrl, c.prepTime,
         c.cookTime, c.servings, c.difficulty, now⟩
      (⟨201, recipeJson row⟩, { db with recipes := db.recipes ++ [row] }, 1)

/-- The `POST /api/recipes/with-image` handler: the Cloudinary URL of
an uploaded file (`fileUrl`), when present, takes precedence over the
`imageUrl` form field, then the request funnels into the same schema
and INSERT as the JSON variant. -/
def postRecipeWithImageHandler (db : Db) (b : RecipeBody)
    (fileUrl : Option String) (newId : String) (now : Nat) :
    HResp × Db × Nat :=
  let b2 := { b with imageUrl := match fileUrl with
    | some u2 => some u2
    | none => b.imageUrl }
  postRecipeHandler db b2 newId now

/-! ## Users and auth handlers -/

/-- Serialization of a user row as projected by
`SELECT id, name, email, avatar_url, created_at` — the
`password_hash` column is never part of this projection. -/
def userJson (u : UserRow) : Json :=
  Json.obj
    [("id", Json.str u.id),
     ("name", Json.str u.name),
     ("email", Json.str u.email),
     ("avatarUrl", optStr u.avatarUrl),
     ("createdAt", Json.num (u.createdAt : Rat))]

/-- Lookup `SELECT ... FROM public.users WHERE id = $1`. -/
def findUser (db : Db) (uid : String) : Option UserRow :=
  db.users.find? fun u => u.id == uid

/-- Response logic of `GET /api/users/:id` as a function of the query
outcome.  The handler has no `try`/`catch`, so a storage failure
produces no response at all, modelled by `none`. -/
def getUserRespond (q : Except String (Option UserRow)) : Option HResp :=
  match q with
  | Except.error _ => none
  | Except.ok none => some ⟨404, errBody "Not found"⟩
  | Except.ok (some u) => some ⟨200, userJson u⟩

/-- The `GET /api/users/:id` handler on a successful query. -/
def getUserHandler (db : Db) (uid : String) : Option HResp :=
  getUserRespond (Except.ok (findUser db uid))

/-- The `PUT /api/users/:id` handler: requires a nonempty trimmed
`name`, updates it, 404 when the user id is unknown. -/
def putUserHandler (db : Db) (uid : String) (nameField : Option String) :
    HResp × Db :=
  match nameField with
  | none => (⟨400, errBody "El nombre es obligatorio"⟩, db)
  | some nm =>
    if nm.trim = "" then (⟨400, errBody "El nombre es obligatorio"⟩, db)
    else
      match findUser db uid with
      | none => (⟨404, errBody "Usuario no encontrado"⟩, db)
      | some u0 =>
          let u1 := { u0 with name := nm.trim }
          let newUsers := db.users.map fun u =>
            if u.id == uid then { u with name := nm.trim } else u
          (⟨200, userJson u1⟩, { db with users := newUsers })

/-- `SELECT EXISTS(... WHERE lower(email) = lower($1))` from the
register handler. -/
def emailExists (db : Db) (email : String) : Bool :=
  db.users.any fun u => lowerStr u.email == lowerStr email

/-- The `POST /api/auth/register` handler: schema check (400),
case-insensitive duplicate-email check (409), bcrypt hash at cost 10,
INSERT, 201 with the hash-free projection. -/
def registerHandler (db : Db) (b : RegisterBody) (newId : String) (now : Nat) :
    HResp × Db :=
  match parseRegister b with
  | none => (⟨400, invalidBody⟩, db)
  | some inp =>
    if emailExists db inp.email then
      (⟨409, errBody "El email ya está registrado"⟩, db)
    else
      let row : UserRow :=
        ⟨newId, inp.name, inp.email, some (bcryptHash inp.password 10),
         inp.avatarUrl, now⟩
      (⟨201, userJson row⟩, { db with users := db.users ++ [row] })

/-- The `POST /api/auth/login` handler: schema check (400), lookup by
case-insensitive email with `LIMIT 1` (404 when absent), guard against
a missing stored hash (401), bcrypt compare (401), then 200 with the
row minus its `password_hash` key. -/
def loginHandler (db : Db) (b : LoginBody) : HResp :=
  match parseLogin b with
  | none => ⟨400, invalidBody⟩
  | some inp =>
    match db.users.find? (fun u => lowerStr u.email == lowerStr inp.email) with
    | none => ⟨404, errBody "Este email no está registrado"⟩
    | some row =>
      match row.passwordHash with
      | none => ⟨401, errBody "Cuenta sin contraseña"⟩
      | some ph =>
        if bcryptCompare inp.password ph then ⟨200, userJson row⟩
        else ⟨401, errBody "Contraseña incorrecta"⟩

/-! ## Favorites handlers -/

/-- Serialization of a favorites row (`RETURNING` projection). -/
def favRowJson (f : FavoriteRow) : Json :=
  Json.obj
    [("userId", Json.str f.userId),
     ("recipeId", Json.str f.recipeId),
     ("createdAt", Json.num (f.createdAt : Rat))]

/-- `INSERT INTO public.favorites ... ON CONFLICT DO NOTHING
RETURNING ...`: when the pair already exists nothing is inserted and
no row is returned; otherwise the new row is inserted and returned. -/
def insertFavorite (db : Db) (u r : String) (now : Nat) :
    Db × Option FavoriteRow :=
  if db.favorites.any (fun f => f.userId == u && f.recipeId == r) then
    (db, none)
  else
    let row : FavoriteRow := ⟨u, r, now⟩
    ({ db with favorites := db.favorites ++ [row] }, some row)

/-- Response logic of `POST /api/users/:userId/favorites` as a
function of the query outcome: on success 201 with the returned row or
the `{ userId, recipeId }` echo (`rows[0] ?? ...`), and — as written
in the source — status 400 with the driver message in the `catch`. -/
def postFavoriteRespond (u r : String) (q : Except String (Option FavoriteRow)) :
    HResp :=
  match q with
  | Except.ok ro =>
      ⟨201, match ro with
        | some row => favRowJson row
        | none => Json.obj [("userId", Json.str u), ("recipeId", Json.str r)]⟩
  | Except.error m => ⟨400, errBody m⟩

/-- The `POST /api/users/:userId/favorites` handler on a successful
query. -/
def postFavoriteHandler (db : Db) (u r : String) (now : Nat) : HResp × Db :=
  let step := insertFavorite db u r now
  (postFavoriteRespond u r (Except.ok step.2), step.1)

/-- Response logic of `DELETE /api/users/:userId/favorites/:recipeId`:
204 on success, and — as written in the source — status 400 with the
driver message in the `catch`. -/
def deleteFavoriteRespond (q : Except String Unit) : HResp :=
  match q with
  | Except.ok _ => ⟨204, Json.null⟩
  | Except.error m => ⟨400, errBody m⟩

/-- The `DELETE /api/users/:userId/favorites/:recipeId` handler on a
successful query: unconditional DELETE by composite key, then 204. -/
def deleteFavoriteHandler (db : Db) (u r : String) : HResp × Db :=
  (deleteFavoriteRespond (Except.ok ()),
   { db with favorites :=
      db.favorites.filter fun f => !(f.userId == u && f.recipeId == r) })

/-- Response logic of `GET /api/recipes/:id` as a function of the
query outcome: its `catch` answers 500 with the driver message. -/
def getRecipeByIdRespond (q : Except String (Option Recipe)) : Option HResp :=
  match q with
  | Except.error m => some ⟨500, errBody m⟩
  | Except.ok none => some ⟨404, errBody "Not found"⟩
  | Except.ok (some r) => some ⟨200, recipeJson r⟩

/-! ## Ratings handlers -/

/-- Rounding of `AVG(rating)::numeric(10,2)`: the average as a
rational rounded to two decimal places.  Ratings are positive, so
round-half-up coincides with the numeric cast. -/
def round2 (x : Rat) : Rat := (round (x * 100) : Int) / 100

/-- The rows of `public.ratings` for one recipe. -/
def ratingsFor (db : Db) (r : String) : List RatingRow :=
  db.ratings.filter fun x => x.recipeId == r

/-- `INSERT ... ON CONFLICT (user_id, recipe_id) DO UPDATE SET
rating = EXCLUDED.rating`: one row per pair, overwritten when it
already exists. -/
def upsertRating (db : Db) (u r : String) (v : Int) : Db :=
  if db.ratings.any (fun x => x.userId == u && x.recipeId == r) then
    { db with ratings := db.ratings.map fun x =>
        if x.userId == u && x.recipeId == r then { x with rating := v } else x }
  else
    { db with ratings := db.ratings ++ [⟨u, r, v⟩] }

/-- The `PUT /api/users/:userId/ratings/:recipeId` handler: schema
check (400), upsert, 200 with the returned row. -/
def putRatingHandler (db : Db) (u r : String) (body : Option NumInput) :
    HResp × Db :=
  match parseRating body with
  | none => (⟨400, errBody "Datos inválidos"⟩, db)
  | some v =>
      (⟨200, Json.obj [("userId", Json.str u), ("recipeId", Json.str r),
                       ("rating", Json.num (v : Rat))]⟩,
       upsertRating db u r v)

/-- The `GET /api/recipes/:id/ratings` handler:
`SELECT AVG(rating)::numeric(10,2), COUNT(*)` — the average defaults
to 0 when no ratings exist (`avg !== null ? Number(avg) : 0`). -/
def getRecipeRatingsHandler (db : Db) (r : String) : HResp :=
  let rows := ratingsFor db r
  let count := rows.length
  let avg : Json :=
    if count = 0 then Json.num 0
    else Json.num (round2 (((rows.map fun x => (x.rating : Rat)).sum) / count))
  ⟨200, Json.obj [("average", avg), ("count", Json.num (count : Rat))]⟩

/-! ## Comments handlers -/

/-- `FROM public.comments c INNER JOIN public.users u ON u.id =
c.user_id WHERE c.recipe_id = $1`: every comment of the recipe paired
with its author row (`id` is the users primary key, so the first match
is the match). -/
def commentsJoined (db : Db) (rid : String) : List (CommentRow × UserRow) :=
  (db.comments.filter fun c => c.recipeId == rid).filterMap fun c =>
    (db.users.find? fun u => u.id == c.userId).map fun u => (c, u)

/-- The `ORDER BY c.created_at DESC` relation on joined rows. -/
def cuRel (a b : CommentRow × UserRow) : Prop :=
  b.1.createdAt ≤ a.1.createdAt

instance : DecidableRel cuRel := fun a b => Nat.decLe b.1.createdAt a.1.createdAt

instance : IsTotal (CommentRow × UserRow) cuRel :=
  ⟨fun a b => Nat.le_total b.1.createdAt a.1.createdAt⟩

instance : IsTrans (CommentRow × UserRow) cuRel :=
  ⟨fun _ _ _ h1 h2 => Nat.le_trans h2 h1⟩

/-- Result rows of `GET /api/recipes/:id/comments`: the join, ordered
newest first, limited to 50. -/
def listCommentsRows (db : Db) (rid : String) : List (CommentRow × UserRow) :=
  ((commentsJoined db rid).insertionSort cuRel).take 50

/-- Serialization of one joined comment row (the SELECT projection
with the author name and avatar). -/
def commentJson (p : CommentRow × UserRow) : Json :=
  Json.obj
    [("id", Json.str p.1.id),
     ("content", Json.str p.1.content),
     ("createdAt", Json.num (p.1.createdAt : Rat)),
     ("userId", Json.str p.1.userId),
     ("userName", Json.str p.2.name),
     ("userAvatar", optStr p.2.avatarUrl)]

/-- The `GET /api/recipes/:id/comments` handler on a successful
query. -/
def listCommentsHandler (db : Db) (rid : String) : HResp :=
  ⟨200, Json.arr ((listCommentsRows db rid).map commentJson)⟩

/-! ## Persistence gateway (`db.ts`) -/

/-- The primitive steps of the `query` function in `db.ts`. -/
inductive PAct where
  | acquireConn : PAct
  | runStmt : PAct
  | releaseConn : PAct
deriving DecidableEq, BEq

/-- Control-flow skeleton of a JavaScript async function: single
actions, sequencing (abandoned when the left part throws) and
`try`/`finally` (the finalizer runs whether or not the body throws,
and the failure of either fails the whole). -/
inductive Prog where
  | act (a : PAct) : Prog
  | seqP (p q : Prog) : Prog
  | tryFinally (p q : Prog) : Prog

/-- Execution of a `Prog` given which actions throw: the trace of
actions actually executed, and whether the whole run succeeded. -/
def runProg (fails : PAct → Bool) : Prog → List PAct × Bool
  | Prog.act a => ([a], !(fails a))
  | Prog.seqP p q =>
      let s1 := runProg fails p
      if s1.2 then
        let s2 := runProg fails q
        (s1.1 ++ s2.1, s2.2)
      else (s1.1, false)
  | Prog.tryFinally p q =>
      let s1 := runProg fails p
      let s2 := runProg fails q
      (s1.1 ++ s2.1, s1.2 && s2.2)

/-- The body of `query` in `db.ts`:
`const client = await pool.connect(); try { await client.query(...) }
finally { client.release() }`. -/
def queryProg : Prog :=
  Prog.seqP (Prog.act PAct.acquireConn)
    (Prog.tryFinally (Prog.act PAct.runStmt) (Prog.act PAct.releaseConn))

/-! ## Example fixtures used by the concrete witnesses -/

/-- Example user row. -/
def userEx : UserRow :=
  ⟨"11111111-1111-1111-1111-111111111111", "Ana", "ana@example.com",
   some (bcryptHash "secret1" 10), none, 1⟩

/-- Example recipe row owned by `userEx`. -/
def recipeEx : Recipe :=
  ⟨"r1", "11111111-1111-1111-1111-111111111111", none, "Paella",
   none, none, none, none, none, none, none, 2⟩

/-- Example favorite association. -/
def favEx : FavoriteRow :=
  ⟨"11111111-1111-1111-1111-111111111111", "r1", 3⟩

/-- Example comment on `recipeEx` by `userEx`. -/
def commentEx : CommentRow :=
  ⟨"c1", "r1", "11111111-1111-1111-1111-111111111111", "Rico", 5⟩

/-- Example database state. -/
def dbEx : Db := ⟨[userEx], [recipeEx], [favEx], [], [commentEx]⟩

/-! ## Helper lemmas -/

/-- An Option bind whose continuation is constantly `none` is `none`. -/
theorem bind_const_none (o : Option α) :
    (o.bind fun _ => (none : Option β)) = none := by
  cases o <;> rfl

/-- The error body never carries a `password_hash` key. -/
theorem hasKey_errBody (k m : String) (hk : k ≠ "error") :
    Json.hasKey k (errBody m) = false := by
  simp [errBody, Json.hasKey, hk, Ne.symm hk]

/-- The hash-free user projection never carries a `password_hash`
key. -/
theorem hasKey_userJson (u : UserRow) :
    Json.hasKey "password_hash" (userJson u) = false := by
  simp [userJson, Json.hasKey]

/-- The schema-rejection body never carries a `password_hash` key. -/
theorem hasKey_invalidBody :
    Json.hasKey "password_hash" invalidBody = false := by
  simp [invalidBody, Json.hasKey]

/-! ## C7 — the persistence gateway releases its connection on every
exit path -/

/-- C7: for every failure pattern of the underlying driver in which
connection acquisition itself succeeds (and `client.release()`, which
is not a throwing operation, succeeds), one call of the `query`
primitive of `db.ts` executes exactly the trace acquire, statement,
release — the connection is released exactly once, after acquisition,
whether or not the statement throws — and the call succeeds exactly
when the statement does. -/
theorem query_releases_connection (fails : PAct → Bool)
    (hacq : fails PAct.acquireConn = false)
    (hrel : fails PAct.releaseConn = false) :
    (runProg fails queryProg).1 =
      [PAct.acquireConn, PAct.runStmt, PAct.releaseConn]
    ∧ (runProg fails queryProg).1.count PAct.releaseConn = 1
    ∧ (runProg fails queryProg).2 = !(fails PAct.runStmt) := by
  cases hrs : fails PAct.runStmt <;>
    simp [runProg, queryProg, hacq, hrel, hrs] <;> decide

/-- Witness for C7 at a concrete failure pattern: the statement throws
and the connection is still released exactly once. -/
theorem query_releases_connection_witness :
    ((fun a => a == PAct.runStmt) PAct.acquireConn = false)
    ∧ (runProg (fun a => a == PAct.runStmt) queryProg).1.count
        PAct.releaseConn = 1 :=
  ⟨by decide,
   (query_releases_connection (fun a => a == PAct.runStmt)
     (by decide) (by decide)).2.1⟩

/-! ## C6 — how storage failures surface, handler by handler -/

/-- C6 counterexample: the favorites-insert handler answers a storage
failure with status 400, not 500, at a concrete failing query. -/
theorem storage_error_favorites_counterexample :
    (postFavoriteRespond "u1" "r1"
        (Except.error "connection terminated")).status = 400
    ∧ ¬ (postFavoriteRespond "u1" "r1"
        (Except.error "connection terminated")).status = 500 := by
  exact ⟨rfl, by simp [postFavoriteRespond]⟩

/-- C6 amended: handlers that catch storage failures pass the driver
message through unclassified, but the favorites insert and delete
handlers use status 400 while e.g. the recipe-read handler uses 500;
and `GET /api/users/:id` has no catch at all, so a storage failure
escapes the handler unanswered. -/
theorem storage_error_statuses (m u r : String) :
    postFavoriteRespond u r (Except.error m) = ⟨400, errBody m⟩
    ∧ deleteFavoriteRespond (Except.error m) = ⟨400, errBody m⟩
    ∧ getRecipeByIdRespond (Except.error m) = some ⟨500, errBody m⟩
    ∧ getUserRespond (Except.error m) = none :=
  ⟨rfl, rfl, rfl, rfl⟩

/-! ## C3 — favorites insert and delete are idempotent -/

/-- C3: inserting a favorite pair that already exists (exactly one
stored association) is a silent no-op — the state is unchanged, so
exactly one association remains, and the handler answers 201 with the
association echo rather than an error; deleting an absent pair also
succeeds, answering 204 with the state unchanged. -/
theorem favorites_idempotent (u r : String) (now : Nat) :
    (∀ db : Db,
      db.favorites.countP (fun f => f.userId == u && f.recipeId == r) = 1 →
      postFavoriteHandler db u r now =
        (⟨201, Json.obj [("userId", Json.str u), ("recipeId", Json.str r)]⟩, db)
      ∧ (postFavoriteHandler db u r now).2.favorites.countP
          (fun f => f.userId == u && f.recipeId == r) = 1)
    ∧ (∀ db : Db,
      db.favorites.countP (fun f => f.userId == u && f.recipeId == r) = 0 →
      deleteFavoriteHandler db u r = (⟨204, Json.null⟩, db)) := by
  constructor
  · intro db h1
    have hpos : 0 < db.favorites.countP
        (fun f => f.userId == u && f.recipeId == r) := by omega
    have hany : db.favorites.any
        (fun f => f.userId == u && f.recipeId == r) = true := by
      rcases List.countP_pos_iff.mp hpos with ⟨f, hf, hpf⟩
      exact List.any_eq_true.mpr ⟨f, hf, hpf⟩
    have hins : insertFavorite db u r now = (db, none) := by
      simp [insertFavorite, hany]
    constructor
    · simp [postFavoriteHandler, hins, postFavoriteRespond]
    · simp [postFavoriteHandler, hins, h1]
  · intro db h0
    have hall : ∀ f ∈ db.favorites,
        (!(f.userId == u && f.recipeId == r)) = true := by
      intro f hf
      have hn := List.countP_eq_zero.mp h0 f hf
      cases hpf : (f.userId == u && f.recipeId == r) with
      | true => exact absurd hpf hn
      | false => rfl
    have hfilter : db.favorites.filter
        (fun f => !(f.userId == u && f.recipeId == r)) = db.favorites :=
      List.filter_eq_self.mpr hall
    simp only [deleteFavoriteHandler, deleteFavoriteRespond, hfilter]

/-- Witness for C3 at a concrete state: `dbEx` already holds the pair
once; the duplicate insert echoes it and changes nothing, and deleting
a pair that is not stored answers 204 and changes nothing. -/
theorem favorites_idempotent_witness :
    (dbEx.favorites.countP
      (fun f => f.userId == "11111111-1111-1111-1111-111111111111"
        && f.recipeId == "r1") = 1)
    ∧ postFavoriteHandler dbEx "11111111-1111-1111-1111-111111111111" "r1" 9 =
        (⟨201, Json.obj
          [("userId", Json.str "11111111-1111-1111-1111-111111111111"),
           ("recipeId", Json.str "r1")]⟩, dbEx)
    ∧ (dbEx.favorites.countP
      (fun f => f.userId == "u9" && f.recipeId == "r9") = 0)
    ∧ deleteFavoriteHandler dbEx "u9" "r9" = (⟨204, Json.null⟩, dbEx) :=
  ⟨by decide,
   ((favorites_idempotent "11111111-1111-1111-1111-111111111111" "r1" 9).1
      dbEx (by decide)).1,
   by decide,
   (favorites_idempotent "u9" "r9" 9).2 dbEx (by decide)⟩

/-! ## C2 — rating twice stores one row with the second value -/

/-- C2: starting from a state with no ratings for recipe `r`, rating
it first 5 and then 2 as user `u` leaves exactly one stored rating row
for the pair, holding 2, and the aggregate endpoint then reports
`average: 2, count: 1`. -/
theorem rating_upsert_spec (u r : String) (db : Db)
    (h : db.ratings.filter (fun x => x.recipeId == r) = []) :
    ((putRatingHandler (putRatingHandler db u r (some (Sum.inl 5))).2 u r
        (some (Sum.inl 2))).2.ratings.filter
        (fun x => x.userId == u && x.recipeId == r) = [⟨u, r, 2⟩])
    ∧ getRecipeRatingsHandler
        (putRatingHandler (putRatingHandler db u r (some (Sum.inl 5))).2 u r
          (some (Sum.inl 2))).2 r =
      ⟨200, Json.obj [("average", Json.num 2), ("count", Json.num 1)]⟩ := by
  have hp5 : parseRating (some (Sum.inl 5)) = some 5 := by decide
  have hp2 : parseRating (some (Sum.inl 2)) = some 2 := by decide
  have hall : ∀ x ∈ db.ratings, (x.recipeId == r) = false := by
    intro x hx
    have hn := List.filter_eq_nil_iff.mp h x hx
    cases hpf : (x.recipeId == r) with
    | true => exact absurd hpf hn
    | false => rfl
  have hpair : ∀ x ∈ db.ratings,
      (x.userId == u && x.recipeId == r) = false := by
    intro x hx
    simp [hall x hx]
  have hany1 : db.ratings.any
      (fun x => x.userId == u && x.recipeId == r) = false :=
    List.any_eq_false.mpr fun x hx => by simp [hpair x hx]
  have e1 : (putRatingHandler db u r (some (Sum.inl 5))).2 =
      { db with ratings := db.ratings ++ [⟨u, r, 5⟩] } := by
    simp [putRatingHandler, hp5, upsertRating, hany1]
  have hany2 : (db.ratings ++ [(⟨u, r, 5⟩ : RatingRow)]).any
      (fun x => x.userId == u && x.recipeId == r) = true :=
    List.any_eq_true.mpr ⟨⟨u, r, 5⟩, by simp, by simp⟩
  have hmapid : ∀ x ∈ db.ratings,
      (if x.userId == u && x.recipeId == r
        then { x with rating := 2 } else x) = x := by
    intro x hx
    simp [hpair x hx]
  have e2 : (putRatingHandler { db with ratings := db.ratings ++ [⟨u, r, 5⟩] }
        u r (some (Sum.inl 2))).2 =
      { db with ratings := db.ratings ++ [⟨u, r, 2⟩] } := by
    simp only [putRatingHandler, hp2, upsertRating, hany2, if_true]
    congr 1
    rw [List.map_append]
    congr 1
    · calc db.ratings.map (fun x =>
            if x.userId == u && x.recipeId == r
              then { x with rating := 2 } else x)
          = db.ratings.map id := List.map_congr_left hmapid
        _ = db.ratings := List.map_id db.ratings
    · simp
  have hfilterdb : db.ratings.filter
      (fun x => x.userId == u && x.recipeId == r) = [] :=
    List.filter_eq_nil_iff.mpr fun x hx => by simp [hpair x hx]
  rw [e1, e2]
  constructor
  · simp only [List.filter_append, hfilterdb]
    simp
  · have hrows : ratingsFor { db with ratings := db.ratings ++ [⟨u, r, 2⟩] } r =
        [⟨u, r, 2⟩] := by
      simp only [ratingsFor, List.filter_append, h]
      simp
    simp only [getRecipeRatingsHandler, hrows]
    norm_num [round2, round_eq]

/-- Witness for C2 at a concrete state: `dbEx` has no ratings at
all. -/
theorem rating_upsert_spec_witness :
    (dbEx.ratings.filter (fun x => x.recipeId == "r1") = [])
    ∧ getRecipeRatingsHandler
        (putRatingHandler
          (putRatingHandler dbEx "11111111-1111-1111-1111-111111111111" "r1"
            (some (Sum.inl 5))).2
          "11111111-1111-1111-1111-111111111111" "r1"
          (some (Sum.inl 2))).2 "r1" =
      ⟨200, Json.obj [("average", Json.num 2), ("count", Json.num 1)]⟩ :=
  ⟨by decide,
   (rating_upsert_spec "11111111-1111-1111-1111-111111111111" "r1" dbEx
     (by decide)).2⟩

/-! ## C4 — registration: duplicate email 409, bcrypt cost 10, no
hash in the response -/

/-- C4: for a body accepted by the register schema, an email equal to
an existing account up to letter case is answered 409 with no user
inserted; otherwise the user is persisted with its password hashed by
bcrypt at cost factor 10 and the handler answers 201 with the user
record carrying no password-hash key. -/
theorem register_spec (db : Db) (b : RegisterBody) (newId : String) (now : Nat)
    (inp : RegisterInput) (hp : parseRegister b = some inp) :
    ((∃ u2 ∈ db.users, lowerStr u2.email = lowerStr inp.email) →
      registerHandler db b newId now =
        (⟨409, errBody "El email ya está registrado"⟩, db))
    ∧ ((∀ u2 ∈ db.users, lowerStr u2.email ≠ lowerStr inp.email) →
      registerHandler db b newId now =
        (⟨201, userJson ⟨newId, inp.name, inp.email,
            some (bcryptHash inp.password 10), inp.avatarUrl, now⟩⟩,
         { db with users := db.users ++
            [⟨newId, inp.name, inp.email, some (bcryptHash inp.password 10),
              inp.avatarUrl, now⟩] }))
    ∧ (registerHandler db b newId now).1.body.hasKey "password_hash" = false := by
  refine ⟨?_, ?_, ?_⟩
  · intro hex
    have hee : emailExists db inp.email = true := by
      rcases hex with ⟨u2, hu2, he⟩
      exact List.any_eq_true.mpr ⟨u2, hu2, by simp [he]⟩
    simp [registerHandler, hp, hee]
  · intro hnone
    have hee : emailExists db inp.email = false := by
      apply List.any_eq_false.mpr
      intro u2 hu2
      simp [hnone u2 hu2]
    simp [registerHandler, hp, hee]
  · rcases hex : emailExists db inp.email with _ | _
    · simp [registerHandler, hp, hex, hasKey_userJson]
    · simp [registerHandler, hp, hex, errBody, Json.hasKey]

/-- Witness for C4: registering `ANA@example.com` against `dbEx`
(which stores `ana@example.com`) is refused with 409 and no insert. -/
theorem register_spec_witness :
    (parseRegister ⟨some "Ana2", some "ANA@example.com", some "secreta",
        none⟩ = some ⟨"Ana2", "ANA@example.com", "secreta", none⟩)
    ∧ registerHandler dbEx
        ⟨some "Ana2", some "ANA@example.com", some "secreta", none⟩
        "id2" 7 =
      (⟨409, errBody "El email ya está registrado"⟩, dbEx) :=
  ⟨by decide,
   (register_spec dbEx
      ⟨some "Ana2", some "ANA@example.com", some "secreta", none⟩ "id2" 7
      ⟨"Ana2", "ANA@example.com", "secreta", none⟩ (by decide)).1
      ⟨userEx, by decide, by decide⟩⟩

/-! ## C5 — the password hash is never serialized to clients -/

/-- C5: for every state and input, none of the user-record endpoints
(register, login, read user, rename user) produces a response body
carrying a `password_hash` key, on any branch. -/
theorem no_password_hash_leak (db : Db) (rb : RegisterBody) (lb : LoginBody)
    (uid : String) (nm : Option String) (newId : String) (now : Nat) :
    (registerHandler db rb newId now).1.body.hasKey "password_hash" = false
    ∧ (loginHandler db lb).body.hasKey "password_hash" = false
    ∧ (∀ resp : HResp, getUserHandler db uid = some resp →
        resp.body.hasKey "password_hash" = false)
    ∧ (putUserHandler db uid nm).1.body.hasKey "password_hash" = false := by
  refine ⟨?_, ?_, ?_, ?_⟩
  · rcases hpr : parseRegister rb with _ | inp
    · simp [registerHandler, hpr, hasKey_invalidBody]
    · rcases hex : emailExists db inp.email with _ | _
      · simp [registerHandler, hpr, hex, hasKey_userJson]
      · simp [registerHandler, hpr, hex, errBody, Json.hasKey]
  · rcases hpl : parseLogin lb with _ | inp
    · simp [loginHandler, hpl, hasKey_invalidBody]
    · rcases hf : db.users.find?
        (fun u => lowerStr u.email == lowerStr inp.email) with _ | row
      · simp [loginHandler, hpl, hf, errBody, Json.hasKey]
      · rcases hph : row.passwordHash with _ | ph
        · simp [loginHandler, hpl, hf, hph, errBody, Json.hasKey]
        · rcases hcmp : bcryptCompare inp.password ph with _ | _
          · simp [loginHandler, hpl, hf, hph, hcmp, errBody, Json.hasKey]
          · simp [loginHandler, hpl, hf, hph, hcmp, hasKey_userJson]
  · intro resp hresp
    rcases hf : findUser db uid with _ | u2
    · simp [getUserHandler, getUserRespond, hf] at hresp
      simp [← hresp, errBody, Json.hasKey]
    · simp [getUserHandler, getUserRespond, hf] at hresp
      simp [← hresp, hasKey_userJson]
  · rcases nm with _ | n
    · simp [putUserHandler, errBody, Json.hasKey]
    · rcases htr : n.trim == "" with _ | _
      · rcases hf : findUser db uid with _ | u2
        · simp [putUserHandler, (by simpa using htr : ¬ n.trim = ""), hf,
            errBody, Json.hasKey]
        · simp [putUserHandler, (by simpa using htr : ¬ n.trim = ""), hf,
            hasKey_userJson]
      · simp [putUserHandler, (by simpa using htr : n.trim = ""),
          errBody, Json.hasKey]

/-- Witness for C5: the read-user endpoint at a concrete state answers
without a password-hash key. -/
theorem no_password_hash_leak_witness :
    (getUserHandler dbEx "11111111-1111-1111-1111-111111111111" =
      some ⟨200, userJson userEx⟩)
    ∧ Json.hasKey "password_hash" (userJson userEx) = false :=
  ⟨by rfl,
   (no_password_hash_leak dbEx ⟨none, none, none, none⟩ ⟨none, none⟩
      "11111111-1111-1111-1111-111111111111" none "x" 0).2.2.1
     ⟨200, userJson userEx⟩ (by rfl)⟩

/-! ## C8 — difficulty is restricted to the three enumerated values -/

/-- Inversion of a successful partial-schema parse: each parsed field
is the checked image of its raw field. -/
theorem parseRecipeUpdate_inv (b : RecipeBody) (u : RecipeUpdate)
    (h : parseRecipeUpdate b = some u) :
    checkOpt vStr1 b.title = some u.title
    ∧ checkOpt some b.description = some u.description
    ∧ checkOpt vPosInt b.categoryId = some u.categoryId
    ∧ checkOpt vUrl b.imageUrl = some u.imageUrl
    ∧ checkOpt some b.ingredients = some u.ingredients
    ∧ checkOpt some b.prepTime = some u.prepTime
    ∧ checkOpt some b.cookTime = some u.cookTime
    ∧ checkOpt vPosInt b.servings = some u.servings
    ∧ checkOpt vDifficulty b.difficulty = some u.difficulty
    ∧ checkOpt vUuid b.userId = some u.userId := by
  simp only [parseRecipeUpdate] at h
  rcases Option.bind_eq_some.mp h with ⟨t, ht, h⟩
  rcases Option.bind_eq_some.mp h with ⟨de, hde, h⟩
  rcases Option.bind_eq_some.mp h with ⟨cg, hcg, h⟩
  rcases Option.bind_eq_some.mp h with ⟨iu, hiu, h⟩
  rcases Option.bind_eq_some.mp h with ⟨ig, hig, h⟩
  rcases Option.bind_eq_some.mp h with ⟨pt, hpt, h⟩
  rcases Option.bind_eq_some.mp h with ⟨ck, hck, h⟩
  rcases Option.bind_eq_some.mp h with ⟨sv, hsv, h⟩
  rcases Option.bind_eq_some.mp h with ⟨df, hdf, h⟩
  rcases Option.bind_eq_some.mp h with ⟨ui, hui, h⟩
  rw [Option.some.injEq] at h
  subst h
  exact ⟨ht, hde, hcg, hiu, hig, hpt, hck, hsv, hdf, hui⟩

/-- C8: a creation payload whose difficulty is any string other than
the three literals is rejected with 400 by both creation endpoints
before any database statement runs; and every accepted payload has a
difficulty among exactly those three literals. -/
theorem difficulty_enum_spec (b : RecipeBody) (db : Db) (newId : String)
    (now : Nat) (fileUrl : Option String) :
    (∀ d, b.difficulty = some d →
      ¬(d = "Fácil" ∨ d = "Media" ∨ d = "Difícil") →
      postRecipeHandler db b newId now = (⟨400, invalidBody⟩, db, 0)
      ∧ postRecipeWithImageHandler db b fileUrl newId now =
          (⟨400, invalidBody⟩, db, 0))
    ∧ (∀ c, parseRecipeCreate b = some c → ∀ d, c.difficulty = some d →
      d = "Fácil" ∨ d = "Media" ∨ d = "Difícil") := by
  constructor
  · intro d hd henum
    have hdiff : checkOpt vDifficulty b.difficulty = none := by
      rw [hd]
      simp [checkOpt, vDifficulty, henum]
    have hpu : parseRecipeUpdate b = none := by
      simp [parseRecipeUpdate, hdiff, bind_const_none]
    constructor
    · simp [postRecipeHandler, parseRecipeCreate, hpu]
    · simp [postRecipeWithImageHandler, postRecipeHandler, parseRecipeCreate,
        parseRecipeUpdate, hdiff, bind_const_none]
  · intro c hc d hd
    rcases Option.bind_eq_some.mp hc with ⟨u, hu, hmatch⟩
    have hdf := (parseRecipeUpdate_inv b u hu).2.2.2.2.2.2.2.2.1
    have hcd : c.difficulty = u.difficulty := by
      rcases ht : u.title with _ | t <;> rcases hui : u.userId with _ | ui <;>
        rw [ht, hui] at hmatch <;> simp at hmatch
      rw [← hmatch]
    rw [hcd] at hd
    rw [hd] at hdf
    rcases hbd : b.difficulty with _ | d0
    · rw [hbd] at hdf
      simp [checkOpt] at hdf
    · rw [hbd] at hdf
      by_cases hcond : d0 = "Fácil" ∨ d0 = "Media" ∨ d0 = "Difícil"
      · have hv : vDifficulty d0 = some d0 := by rw [vDifficulty, if_pos hcond]
        simp [checkOpt, hv] at hdf
        rw [← hdf]
        exact hcond
      · have hv : vDifficulty d0 = none := by rw [vDifficulty, if_neg hcond]
        simp [checkOpt, hv] at hdf

/-- Witness for C8: a payload with difficulty `"hard"` is rejected by
both creation endpoints with no database access. -/
theorem difficulty_enum_spec_witness :
    postRecipeHandler dbEx
      ⟨some "Paella", none, none, none, none, none, none, none,
       some "hard", some "11111111-1111-1111-1111-111111111111"⟩
      "n1" 4 = (⟨400, invalidBody⟩, dbEx, 0) :=
  ((difficulty_enum_spec
      ⟨some "Paella", none, none, none, none, none, none, none,
       some "hard", some "11111111-1111-1111-1111-111111111111"⟩
      dbEx "n1" 4 none).1 "hard" rfl (by decide)).1

/-! ## C1 — the dynamic SET clause covers exactly the present fields -/

/-- The builder loop, started on any accumulator whose parameter index
is one past the accumulated values, appends exactly the rendering of
the present assignments. -/
theorem pushF_chain (l : List (String × Option Json)) (us : List String)
    (vs : List Json) :
    l.foldl pushF (us, vs, vs.length + 1) =
      (us ++ (numberFrom (vs.length + 1)
        (l.filterMap fun p => p.2.map fun v => (p.1, v))).1,
       vs ++ (l.filterMap fun p => p.2.map fun v => (p.1, v)).map Prod.snd,
       vs.length + (l.filterMap fun p => p.2.map fun v => (p.1, v)).length + 1) := by
  induction l generalizing us vs with
  | nil => simp [numberFrom]
  | cons p tl ih =>
    rcases p with ⟨c, vo⟩
    rcases vo with _ | v
    · simp only [List.foldl_cons]
      have hstep : pushF (us, vs, vs.length + 1) (c, none) =
          (us, vs, vs.length + 1) := by simp [pushF]
      rw [hstep, ih]
      simp [List.filterMap_cons]
    · simp only [List.foldl_cons]
      have hstep : pushF (us, vs, vs.length + 1) (c, some v) =
          (us ++ [c ++ " = $" ++ toString (vs.length + 1)], vs ++ [v],
           (vs ++ [v]).length + 1) := by simp [pushF]
      rw [hstep, ih]
      simp [List.filterMap_cons, numberFrom, List.append_assoc]
      omega

/-- C1: for every body accepted by the partial recipe schema, the
builder emits exactly the rendering of the present recognized fields —
the SET clause texts reference positional parameters 1..n in order and
the parameter values sit in a separate parallel list — and the handler
answers 404 when the recipe id is unknown, and 400 when the recipe
exists but no recognized field is present. -/
theorem update_builder_spec (db : Db) (rid : String) (b : RecipeBody)
    (u : RecipeUpdate) (hp : parseRecipeUpdate b = some u) :
    buildUpdates u =
      ((numberFrom 1 (presentAssignments u)).1,
       (presentAssignments u).map Prod.snd,
       (presentAssignments u).length + 1)
    ∧ (findRecipe db rid = none →
        updateRecipeHandler db rid b =
          (⟨404, errBody "Receta no encontrada"⟩, db))
    ∧ (findRecipe db rid ≠ none → presentAssignments u = [] →
        updateRecipeHandler db rid b =
          (⟨400, errBody "No hay campos para actualizar"⟩, db)) := by
  have hbuild : buildUpdates u =
      ((numberFrom 1 (presentAssignments u)).1,
       (presentAssignments u).map Prod.snd,
       (presentAssignments u).length + 1) := by
    have h0 := pushF_chain (fieldList u) [] []
    simpa [buildUpdates, presentAssignments] using h0
  refine ⟨hbuild, ?_, ?_⟩
  · intro hf
    simp [updateRecipeHandler, hp, hf]
  · intro hf hpres
    rcases hfind : findRecipe db rid with _ | r0
    · exact absurd hfind hf
    · have hempty : (buildUpdates u).1.isEmpty = true := by
        rw [hbuild, hpres]
        rfl
      simp [updateRecipeHandler, hp, hfind, hempty]

/-- Witness for C1 at concrete inputs: a body carrying only a title
renders the single clause `title = $1` with its parameter kept
separate; an unknown recipe id is answered 404; an empty body on an
existing recipe is answered 400. -/
theorem update_builder_spec_witness :
    (parseRecipeUpdate
        ⟨some "Tortilla", none, none, none, none, none, none, none, none,
         none⟩ =
      some ⟨some "Tortilla", none, none, none, none, none, none, none, none,
         none⟩)
    ∧ buildUpdates
        ⟨some "Tortilla", none, none, none, none, none, none, none, none,
         none⟩ =
      (["title = $1"], [Json.str "Tortilla"], 2)
    ∧ updateRecipeHandler dbEx "zzz"
        ⟨some "Tortilla", none, none, none, none, none, none, none, none,
         none⟩ =
      (⟨404, errBody "Receta no encontrada"⟩, dbEx)
    ∧ updateRecipeHandler dbEx "r1"
        ⟨none, none, none, none, none, none, none, none, none, none⟩ =
      (⟨400, errBody "No hay campos para actualizar"⟩, dbEx) := by
  refine ⟨by decide, ?_, ?_, ?_⟩
  · exact (update_builder_spec dbEx "zzz"
      ⟨some "Tortilla", none, none, none, none, none, none, none, none, none⟩
      ⟨some "Tortilla", none, none, none, none, none, none, none, none, none⟩
      (by decide)).1
  · exact (update_builder_spec dbEx "zzz"
      ⟨some "Tortilla", none, none, none, none, none, none, none, none, none⟩
      ⟨some "Tortilla", none, none, none, none, none, none, none, none, none⟩
      (by decide)).2.1 (by decide)
  · exact (update_builder_spec dbEx "r1"
      ⟨none, none, none, none, none, none, none, none, none, none⟩
      ⟨none, none, none, none, none, none, none, none, none, none⟩
      (by decide)).2.2 (by decide) (by rfl)

/-! ## C10 — updates never touch the owner or the creation
timestamp -/

/-- A single SET assignment to any column other than `user_id` and
`created_at` preserves both. -/
theorem applyAssign_frame (r : Recipe) (cv : String × Json)
    (h1 : cv.1 ≠ "user_id") (h2 : cv.1 ≠ "created_at") :
    (applyAssign r cv).userId = r.userId
    ∧ (applyAssign r cv).createdAt = r.createdAt := by
  obtain ⟨c, v⟩ := cv
  simp only at h1 h2
  unfold applyAssign
  dsimp only
  split_ifs <;> (cases v <;> exact ⟨rfl, rfl⟩)

/-- Every assignment the builder can emit targets one of the nine
recognized columns — never `user_id` or `created_at`. -/
theorem presentAssignments_cols (u : RecipeUpdate) :
    ∀ cv ∈ presentAssignments u, cv.1 ≠ "user_id" ∧ cv.1 ≠ "created_at" := by
  intro cv hcv
  rcases List.mem_filterMap.mp hcv with ⟨p, hp, hmap⟩
  rcases hp2 : p.2 with _ | v
  · rw [hp2] at hmap
    cases hmap
  · rw [hp2] at hmap
    have hmap2 : some (p.1, v) = some cv := hmap
    have hfst : cv.1 = p.1 := by rw [← Option.some.inj hmap2]
    fin_cases hp <;> refine ⟨?_, ?_⟩ <;> simp [hfst]

/-- Applying a whole builder-emitted SET clause preserves `user_id`
and `created_at`. -/
theorem applySet_frame (r : Recipe) (u : RecipeUpdate) :
    (applySet r (presentAssignments u)).userId = r.userId
    ∧ (applySet r (presentAssignments u)).createdAt = r.createdAt := by
  have hgen : ∀ (l : List (String × Json)) (r0 : Recipe),
      (∀ cv ∈ l, cv.1 ≠ "user_id" ∧ cv.1 ≠ "created_at") →
      (applySet r0 l).userId = r0.userId
      ∧ (applySet r0 l).createdAt = r0.createdAt := by
    intro l
    induction l with
    | nil => exact fun r0 _ => ⟨rfl, rfl⟩
    | cons cv tl ih =>
      intro r0 hall
      have hstep := applyAssign_frame r0 cv (hall cv (by simp)).1
        (hall cv (by simp)).2
      have ihr := ih (applyAssign r0 cv) fun x hx => hall x (by simp [hx])
      simp only [applySet, List.foldl_cons] at ihr ⊢
      exact ⟨ihr.1.trans hstep.1, ihr.2.trans hstep.2⟩
  exact hgen _ r (presentAssignments_cols u)

/-- C10: a `userId` field is accepted by the partial schema but
ignored by the update builder — a body carrying only `userId` fails
with 400 as having nothing to update — and across every path of the
update handler each stored recipe keeps its owner and its creation
timestamp. -/
theorem update_frame_spec (db : Db) (rid : String) (b : RecipeBody)
    (uid : String) :
    (isUuid uid = true →
      parseRecipeUpdate
          ⟨none, none, none, none, none, none, none, none, none, some uid⟩ =
        some ⟨none, none, none, none, none, none, none, none, none, some uid⟩)
    ∧ (isUuid uid = true → findRecipe db rid ≠ none →
      updateRecipeHandler db rid
          ⟨none, none, none, none, none, none, none, none, none, some uid⟩ =
        (⟨400, errBody "No hay campos para actualizar"⟩, db))
    ∧ ((updateRecipeHandler db rid b).2.recipes.map
          (fun rec => (rec.userId, rec.createdAt)) =
        db.recipes.map fun rec => (rec.userId, rec.createdAt)) := by
  refine ⟨?_, ?_, ?_⟩
  · intro huid
    simp [parseRecipeUpdate, checkOpt, vUuid, huid]
  · intro huid hf
    have hp : parseRecipeUpdate
        ⟨none, none, none, none, none, none, none, none, none, some uid⟩ =
        some ⟨none, none, none, none, none, none, none, none, none, some uid⟩ := by
      simp [parseRecipeUpdate, checkOpt, vUuid, huid]
    rcases hfind : findRecipe db rid with _ | r0
    · exact absurd hfind hf
    · simp [updateRecipeHandler, hp, hfind]
      rfl
  · rcases hpu : parseRecipeUpdate b with _ | u
    · simp [updateRecipeHandler, hpu]
    · rcases hfind : findRecipe db rid with _ | r0
      · simp [updateRecipeHandler, hpu, hfind]
      · rcases hempty : (buildUpdates u).1.isEmpty with _ | _
        · simp only [updateRecipeHandler, hpu, hfind, hempty,
            Bool.false_eq_true, if_false]
          rw [List.map_map]
          apply List.map_congr_left
          intro rec _
          by_cases hid : rec.id = rid
          · have hb : (rec.id == rid) = true := by simp [hid]
            simp [Function.comp, hb, (applySet_frame rec u).1,
              (applySet_frame rec u).2]
          · have hb : (rec.id == rid) = false := by simp [hid]
            simp [Function.comp, hb]
        · simp [updateRecipeHandler, hpu, hfind, hempty]

/-- Witness for C10: on `dbEx`, a body carrying only a (valid) user id
is answered 400, and a real update does not change the owner/creation
pairs. -/
theorem update_frame_spec_witness :
    (isUuid "22222222-2222-2222-2222-222222222222" = true)
    ∧ updateRecipeHandler dbEx "r1"
        ⟨none, none, none, none, none, none, none, none, none,
         some "22222222-2222-2222-2222-222222222222"⟩ =
      (⟨400, errBody "No hay campos para actualizar"⟩, dbEx)
    ∧ ((updateRecipeHandler dbEx "r1"
          ⟨some "Tortilla", none, none, none, none, none, none, none, none,
           none⟩).2.recipes.map (fun rec => (rec.userId, rec.createdAt)) =
        dbEx.recipes.map fun rec => (rec.userId, rec.createdAt)) :=
  ⟨by decide,
   (update_frame_spec dbEx "r1"
      ⟨none, none, none, none, none, none, none, none, none, none⟩
      "22222222-2222-2222-2222-222222222222").2.1 (by decide)
      (by decide),
   (update_frame_spec dbEx "r1"
      ⟨some "Tortilla", none, none, none, none, none, none, none, none, none⟩
      "22222222-2222-2222-2222-222222222222").2.2⟩

/-! ## C9 — comment listing: newest first, at most 50, joined with
the author -/

/-- C9: the comments endpoint returns at most 50 rows, ordered newest
first by creation timestamp; every returned row is a comment of the
requested recipe joined with its author row; when the recipe has at
most 50 comments (each with a stored author) none is dropped; and the
handler body is exactly the serialization of those rows with the
author name and avatar. -/
theorem comments_spec (db : Db) (rid : String) :
    (listCommentsRows db rid).length ≤ 50
    ∧ List.Sorted cuRel (listCommentsRows db rid)
    ∧ (∀ p ∈ listCommentsRows db rid,
        p.1 ∈ db.comments ∧ p.1.recipeId = rid
        ∧ p.2 ∈ db.users ∧ p.2.id = p.1.userId)
    ∧ (∀ c ∈ db.comments, c.recipeId = rid →
        (commentsJoined db rid).length ≤ 50 →
        ∀ u2, db.users.find? (fun x => x.id == c.userId) = some u2 →
        (c, u2) ∈ listCommentsRows db rid)
    ∧ listCommentsHandler db rid =
        ⟨200, Json.arr ((listCommentsRows db rid).map commentJson)⟩ := by
  refine ⟨?_, ?_, ?_, ?_, rfl⟩
  · exact List.length_take_le 50 _
  · exact List.Pairwise.sublist (List.take_sublist 50 _)
      (List.sorted_insertionSort cuRel (commentsJoined db rid))
  · intro p hp
    have hsort : p ∈ (commentsJoined db rid).insertionSort cuRel :=
      List.mem_of_mem_take hp
    have hjoin : p ∈ commentsJoined db rid :=
      (List.mem_insertionSort cuRel).mp hsort
    rcases List.mem_filterMap.mp hjoin with ⟨c, hc, hmap⟩
    rcases hfind : db.users.find? (fun x => x.id == c.userId) with _ | u2
    · rw [hfind] at hmap
      cases hmap
    · rw [hfind] at hmap
      have hmap2 : some (c, u2) = some p := hmap
      have hpe : (c, u2) = p := Option.some.inj hmap2
      have hmf := List.mem_filter.mp hc
      have hu2 : u2 ∈ db.users := List.mem_of_find?_eq_some hfind
      have huid := List.find?_some hfind
      rw [← hpe]
      exact ⟨hmf.1, by simpa using hmf.2, hu2, by simpa using huid⟩
  · intro c hc hcr hlen u2 hfind
    have hjoin : (c, u2) ∈ commentsJoined db rid := by
      apply List.mem_filterMap.mpr
      refine ⟨c, List.mem_filter.mpr ⟨hc, by simp [hcr]⟩, ?_⟩
      rw [hfind]
      rfl
    have hsortlen : ((commentsJoined db rid).insertionSort cuRel).length ≤ 50 := by
      rw [List.length_insertionSort]
      exact hlen
    have htake : ((commentsJoined db rid).insertionSort cuRel).take 50 =
        (commentsJoined db rid).insertionSort cuRel :=
      List.take_of_length_le hsortlen
    rw [listCommentsRows, htake]
    exact (List.mem_insertionSort cuRel).mpr hjoin

/-- Witness for C9 at a concrete state: the single comment of `dbEx`
is returned, joined with its author. -/
theorem comments_spec_witness :
    (listCommentsRows dbEx "r1").length ≤ 50
    ∧ (commentEx, userEx) ∈ listCommentsRows dbEx "r1" :=
  ⟨(comments_spec dbEx "r1").1,
   (comments_spec dbEx "r1").2.2.2.1 commentEx (by decide) (by decide)
     (by decide) userEx (by decide)⟩

end RecipeServer
